import Mathlib

/-!
Shallow embedding of the audio-spectrogram capture pipeline of this
repository: device resolution against the ALSA card registry, stream
negotiation over an ordered list of device-string/channel candidates,
the FIR filter and real-to-half-complex transform of the capture
callback, display bucketing and block-glyph quantization, and the
thread-safe buffer handoff of the GUI variant.  All definitions are
translated from the C++ sources (`main.cpp`, the GUI `main.cpp`
containing `audioThreadFunc`, and `app.cpp`).
-/

namespace Aud

/-! ### String helpers (`containsIgnoreCase`, main.cpp lines 52-65)

The C++ helper lowercases both strings with `std::tolower` over each
character and then asks whether the pattern occurs as a substring
(`std::string::find != npos`).  We model strings as their character
lists; `Char.toLower` is the same ASCII mapping as `std::tolower` on
the ASCII inputs used by the program. -/

/-- Character list of a string lowered with ASCII tolower. -/
def lowerStr (s : String) : List Char :=
  s.data.map Char.toLower

/-- Does the pattern lead the text, character by character. -/
def leadMatch : List Char → List Char → Bool
  | _, [] => true
  | [], _ :: _ => false
  | t :: ts, p :: ps => t == p && leadMatch ts ps

/-- Does the pattern occur as a contiguous run inside the text
(`std::string::find != npos`). -/
def occursIn : List Char → List Char → Bool
  | [], p => p.isEmpty
  | t :: ts, p => leadMatch (t :: ts) p || occursIn ts p

/-- `containsIgnoreCase` of main.cpp: case-insensitive substring test. -/
def containsIgnoreCase (text pattern : String) : Bool :=
  occursIn (lowerStr text) (lowerStr pattern)

/-! ### Device resolver (`getThr5AlsaCardIndex`, main.cpp lines 67-131)

Phase 1 scans the lines of `/proc/asound/cards`: `sscanf(line, " %d")`
parses a leading integer after optional whitespace and, when it
succeeds, updates the running card index; a line matching `THR5` or
`Yamaha` (case-insensitively) with a nonnegative running index wins.
Phase 2 scans the `/proc/asound/cardN` directory entries and matches
the first 9 characters of the card's `usbid` file against
`0499:1506`.  The registry contents and directory entries are inputs
to the embedding. -/

/-- C `isspace` over the ASCII whitespace class used by `sscanf`. -/
def isCSpace (c : Char) : Bool :=
  c == ' ' || c == '\t' || c == '\n' || c == '\x0b' || c == '\x0c' || c == '\r'

/-- Numeric value of a decimal digit character. -/
def digitVal (c : Char) : Nat := c.toNat - 48

/-- Value of a digit run, most significant digit first. -/
def digitsVal (ds : List Char) : Nat :=
  ds.foldl (fun acc c => acc * 10 + digitVal c) 0

/-- `sscanf` `%d` conversion on a character list: an optional sign
followed by at least one digit; `none` when no digits follow. -/
def parseSignedInt (cs : List Char) : Option Int :=
  match cs with
  | '-' :: rest =>
      let ds := rest.takeWhile Char.isDigit
      if ds.isEmpty then none else some (-(digitsVal ds : Int))
  | '+' :: rest =>
      let ds := rest.takeWhile Char.isDigit
      if ds.isEmpty then none else some (digitsVal ds : Int)
  | _ =>
      let ds := cs.takeWhile Char.isDigit
      if ds.isEmpty then none else some (digitsVal ds : Int)

/-- `sscanf(line, " %d", ...)`: skip leading whitespace, then `%d`. -/
def parseLeadingInt (line : String) : Option Int :=
  parseSignedInt (line.data.dropWhile isCSpace)

/-- Phase-1 scan of the card registry lines, carrying
`currentCardIndex` exactly as the C loop does (initially `-1`). -/
def scanCards : List String → Int → Int
  | [], _ => -1
  | line :: rest, current =>
      let current2 := match parseLeadingInt line with
        | some n => n
        | none => current
      if (containsIgnoreCase line "THR5" || containsIgnoreCase line "Yamaha")
          && decide (0 ≤ current2) then
        current2
      else scanCards rest current2

/-- `strncmp(usbid, "0499:1506", 9) == 0` on the usbid file's first line. -/
def usbidMatches (content : String) : Bool :=
  content.data.take 9 == "0499:1506".data

/-- `strncmp(d_name, "card", 4) == 0` followed by `sscanf(d_name,
"card%d", ...)` on a `/proc/asound` directory entry name. -/
def cardEntryIndex (name : String) : Option Int :=
  if name.data.take 4 == "card".data then
    parseSignedInt ((name.data.drop 4).dropWhile isCSpace)
  else none

/-- Phase-2 scan over the `/proc/asound` directory entries, each paired
with the contents of its `usbid` file when that file could be opened
and read. -/
def scanUsbids : List (String × Option String) → Int
  | [] => -1
  | (name, usbid) :: rest =>
      match cardEntryIndex name with
      | none => scanUsbids rest
      | some idx =>
          if idx < 0 then scanUsbids rest
          else
            match usbid with
            | none => scanUsbids rest
            | some content => if usbidMatches content then idx else scanUsbids rest

/-- `getThr5AlsaCardIndex`: phase 1 over the registry lines, then,
only when that yields no nonnegative index, phase 2 over the usbid
records; `-1` means not found. -/
def getThr5AlsaCardIndex (lines : List String)
    (entries : List (String × Option String)) : Int :=
  let cardIndex := scanCards lines (-1)
  if 0 ≤ cardIndex then cardIndex else scanUsbids entries

/-! ### PortAudio device list (`findInputDeviceByName`, main.cpp 133-145) -/

/-- The fields of `PaDeviceInfo` the program reads. -/
structure PaDeviceInfo where
  name : String
  maxInputChannels : Int
  maxOutputChannels : Int
  defaultSampleRate : ℚ
  defaultLowInputLatency : ℚ

/-- Indexed scan of the enumerated devices: first input-capable device
whose name contains the pattern case-insensitively. -/
def findInputAux (pattern : String) : Nat → List PaDeviceInfo → Option Nat
  | _, [] => none
  | i, info :: rest =>
      if decide (0 < info.maxInputChannels) && containsIgnoreCase info.name pattern then
        some i
      else findInputAux pattern (i + 1) rest

/-- `findInputDeviceByName` of main.cpp; `none` models `paNoDevice`. -/
def findInputDeviceByName (devices : List PaDeviceInfo) (pattern : String) : Option Nat :=
  findInputAux pattern 0 devices

/-! ### CLI device selection (main.cpp lines 274-313) -/

/-- Result of the CLI variant's device selection. -/
inductive CliResolution where
  | alsaCard (cardIndex : Int)
  | paDevice (deviceIndex : Nat)
  | deviceNotFound
deriving DecidableEq

/-- The CLI selection logic: prefer the ALSA card index; otherwise try
the PortAudio device list for `THR5`, then `Yamaha`, then `USB`;
otherwise resolution has failed. -/
def cliResolve (lines : List String) (entries : List (String × Option String))
    (devices : List PaDeviceInfo) : CliResolution :=
  let k := getThr5AlsaCardIndex lines entries
  if 0 ≤ k then CliResolution.alsaCard k
  else
    match findInputDeviceByName devices "THR5" with
    | some d => CliResolution.paDevice d
    | none =>
        match findInputDeviceByName devices "Yamaha" with
        | some d => CliResolution.paDevice d
        | none =>
            match findInputDeviceByName devices "USB" with
            | some d => CliResolution.paDevice d
            | none => CliResolution.deviceNotFound

/-- `EXIT_FAILURE` on the reference platform. -/
def exitFailure : Nat := 1

/-- Process-level outcome of the CLI selection stage. -/
inductive CliOutcome where
  | exited (status : Nat) (diagnostic : String)
  | proceedToNegotiation (resolution : CliResolution)
deriving DecidableEq

/-- main.cpp lines 295-298: on failed resolution the CLI variant prints
a diagnostic and calls `exit(EXIT_FAILURE)`; otherwise it proceeds to
open a stream for the selected device. -/
def cliDeviceSelectOutcome (lines : List String)
    (entries : List (String × Option String)) (devices : List PaDeviceInfo) : CliOutcome :=
  match cliResolve lines entries devices with
  | CliResolution.deviceNotFound =>
      CliOutcome.exited exitFailure "Could not find Yamaha THR5 input device."
  | r => CliOutcome.proceedToNegotiation r

/-! ### Stream negotiation (main.cpp lines 326-402)

With a resolved card index the code builds five ALSA device strings and
loops `for d in 0..4, for c in 0..1` over `channelCandidates = {2, 1}`
until `Pa_OpenStream` succeeds.  Whether a given device-string/channel
pair opens is environment behaviour, modelled as a boolean predicate. -/

/-- `channelCandidates = {NUM_CHANNELS, 1}` with `NUM_CHANNELS = 2`. -/
def channelCandidates : List Nat := [2, 1]

/-- `snprintf("plughw:%d,0", k)`. -/
def plughwString (k : Int) : String := "plughw:" ++ toString k ++ ",0"

/-- `snprintf("hw:%d,0", k)`. -/
def hwString (k : Int) : String := "hw:" ++ toString k ++ ",0"

/-- `snprintf("dsnoop:%d,0", k)`. -/
def dsnoopString (k : Int) : String := "dsnoop:" ++ toString k ++ ",0"

/-- `snprintf("sysdefault:%d,0", k)`. -/
def sysdefaultExplicitString (k : Int) : String := "sysdefault:" ++ toString k ++ ",0"

/-- `snprintf("sysdefault:%d", k)`. -/
def sysdefaultBareString (k : Int) : String := "sysdefault:" ++ toString k

/-- `deviceCandidates[0..4]` in declaration order. -/
def deviceCandidates (k : Int) : List String :=
  [plughwString k, hwString k, dsnoopString k,
   sysdefaultExplicitString k, sysdefaultBareString k]

/-- The flattened attempt order of the nested negotiation loop: device
string is the outer loop, channel count the inner loop. -/
def negotiationPairs (k : Int) : List (String × Nat) :=
  ((deviceCandidates k).map (fun d => channelCandidates.map (fun c => (d, c)))).flatten

/-- First candidate pair accepted by the open predicate, mirroring the
`opened` flag that stops both loops. -/
def tryCandidates (ok : String → Nat → Bool) : List (String × Nat) → Option (String × Nat)
  | [] => none
  | (d, c) :: rest => if ok d c then some (d, c) else tryCandidates ok rest

/-- The failing attempts made before the first success (all of them,
when no candidate succeeds). -/
def attemptsBefore (ok : String → Nat → Bool) (cands : List (String × Nat)) :
    List (String × Nat) :=
  cands.takeWhile (fun p => !ok p.1 p.2)

/-- Outcome of the whole ALSA-path negotiation. -/
inductive NegotiationOutcome where
  | alsa (deviceString : String) (channels : Nat)
  | pulse (deviceIndex : Nat) (channels : Nat)
  | failed
deriving DecidableEq

/-- main.cpp line 374: the pulse fallback opens with the full request
when the shared endpoint supports it, otherwise mono. -/
def pulseChannels (info : PaDeviceInfo) : Nat :=
  if 2 ≤ info.maxInputChannels then 2 else 1

/-- main.cpp lines 365-396: when every ALSA candidate failed, look for
a `pulse` (else `default`) input device and open it through the shared
audio server; `pulseOpen` tells whether that open call succeeds. -/
def pulseFallback (devices : List PaDeviceInfo) (pulseOpen : Nat → Nat → Bool) :
    NegotiationOutcome :=
  let idx := match findInputDeviceByName devices "pulse" with
    | some d => some d
    | none => findInputDeviceByName devices "default"
  match idx with
  | none => NegotiationOutcome.failed
  | some d =>
      match devices.get? d with
      | none => NegotiationOutcome.failed
      | some info =>
          if 0 < info.maxInputChannels then
            let ch := pulseChannels info
            if pulseOpen d ch then NegotiationOutcome.pulse d ch
            else NegotiationOutcome.failed
          else NegotiationOutcome.failed

/-- The full negotiation for a resolved card index: the ten ALSA
candidates in loop order, then the pulse fallback. -/
def negotiateAlsa (ok : String → Nat → Bool) (k : Int)
    (devices : List PaDeviceInfo) (pulseOpen : Nat → Nat → Bool) : NegotiationOutcome :=
  match tryCandidates ok (negotiationPairs k) with
  | some (d, c) => NegotiationOutcome.alsa d c
  | none => pulseFallback devices pulseOpen

/-- Open predicate for the scenario in which only the snoop device with
mono succeeds. -/
def dsnoopOnlyOk (k : Int) (d : String) (c : Nat) : Bool :=
  (d == dsnoopString k) && (c == 1)

/-! ### Generic-device open (main.cpp 300-312, 403-419; GUI main
`audioThreadFunc` lines 418-428) -/

/-- The stream parameters the program fills in before `Pa_OpenStream`. -/
structure StreamOpenParams where
  channelCount : Int
  suggestedLatency : ℚ
deriving DecidableEq

/-- GUI variant: start from `NUM_CHANNELS = 2` and lower the channel
count to the device's own maximum when that maximum is smaller; use the
device's reported default low input latency. -/
def guiGenericOpenParams (info : PaDeviceInfo) : StreamOpenParams :=
  { channelCount := if info.maxInputChannels < 2 then info.maxInputChannels else 2,
    suggestedLatency := info.defaultLowInputLatency }

/-- CLI variant: refuse (exit) when the device supports fewer than
`NUM_CHANNELS = 2` input channels, otherwise open with 2 channels and
the device's default low input latency. -/
def cliGenericOpenParams (info : PaDeviceInfo) : Option StreamOpenParams :=
  if info.maxInputChannels < 2 then none
  else some { channelCount := 2, suggestedLatency := info.defaultLowInputLatency }

/-! ### Spectrogram indices (main.cpp lines 244-249) -/

/-- Truncation toward zero, the C `(int)` conversion from `double`. -/
def cTrunc (q : ℚ) : ℤ :=
  if q < 0 then ⌈q⌉ else ⌊q⌋

/-- `sampleRatio = FRAMES_PER_BUFFER / SAMPLE_RATE`: FFT bins per Hz. -/
def samplesPerHz : ℚ := 512 / 44100

/-- `spectroData->startIndex = ceil(sampleRatio * SPECTRO_FREQ_START)`. -/
def startIndexVal : ℤ := ⌈samplesPerHz * 20⌉

/-- `spectroData->spectroSize = min(ceil(sampleRatio * SPECTRO_FREQ_END),
FRAMES_PER_BUFFER / 2.0) - startIndex`, converted to `int`. -/
def spectroSizeVal : ℤ :=
  cTrunc (min ((⌈samplesPerHz * 20000⌉ : ℤ) : ℚ) (512 / 2) - (startIndexVal : ℚ))

/-- The display-bucket index of column `i` out of `dispSize` columns:
`(int)(startIndex + pow(i / dispSize, 4) * spectroSize)`
(main.cpp lines 193-197). -/
def bucketIndex (start span : ℤ) (dispSize i : ℕ) : ℤ :=
  cTrunc ((start : ℚ) + ((i : ℚ) / (dispSize : ℚ)) ^ 4 * (span : ℚ))

/-! ### Block-glyph quantization (main.cpp lines 199-217) -/

/-- The eight block-height glyphs, lowest tier first. -/
def blockGlyphs : List Char := ['▁', '▂', '▃', '▄', '▅', '▆', '▇', '█']

/-- The glyph printed for a sampled transform value, translated from
the `if (freq < 0.125) ... else` chain. -/
def glyphForFreq (freq : ℚ) : Char :=
  if freq < 0.125 then '▁'
  else if freq < 0.25 then '▂'
  else if freq < 0.375 then '▃'
  else if freq < 0.5 then '▄'
  else if freq < 0.625 then '▅'
  else if freq < 0.75 then '▆'
  else if freq < 0.875 then '▇'
  else '█'

/-- The intensity tier a value falls in: eighths of the unit interval,
clamped to tiers 0 and 7 at the boundaries. -/
def tierSpec (x : ℚ) : ℤ := min 7 (max 0 ⌊8 * x⌋)

/-! ### FIR filter and transform (GUI main `streamCallback` lines
165-190, `audioThreadFunc` lines 244-257)

`filterHistory` is a 101-tap most-recent-first history, zero-initialized
with `calloc`; each new sample shifts the history right and the
filtered sample is the inner product with the coefficient array `b`
from `filt.h`.  The coefficients are left as a parameter, so statements
hold for any FIR filter.  The transform is FFTW's `FFTW_R2HC` plan. -/

/-- `FILTER_ORDER`. -/
def filterOrder : ℕ := 101

/-- `FRAMES_PER_BUFFER`. -/
def framesPerBuffer : ℕ := 512

/-- Shift the new sample into the front of the history, discarding the
oldest (`filterHistory[j] = filterHistory[j-1]; filterHistory[0] = x`). -/
def firShift (hist : List ℝ) (x : ℝ) : List ℝ :=
  x :: hist.dropLast

/-- Inner product of the coefficient list with the history list
(`filteredSample += b[j] * filterHistory[j]`). -/
def firDot : List ℝ → List ℝ → ℝ
  | [], _ => 0
  | _ :: _, [] => 0
  | b :: bs, h :: hs => b * h + firDot bs hs

/-- Run the FIR filter over a frame, threading the history. -/
def firProcess (b : List ℝ) : List ℝ → List ℝ → List ℝ
  | _, [] => []
  | hist, x :: xs =>
      let h := firShift hist x
      firDot b h :: firProcess b h xs

/-- Channel-0 downmix: sample `i * inputChannels` of the interleaved
input (`callbackData->in[i] = in[i * callbackData->inputChannels]`). -/
def downmixFrame (input : ℕ → ℝ) (inputChannels : ℕ) : List ℝ :=
  (List.range framesPerBuffer).map (fun i => input (i * inputChannels))

/-- FFTW's `FFTW_R2HC` half-complex transform of `n` real inputs:
cosine sums in slots `0..n/2`, sine sums in the mirrored upper slots. -/
noncomputable def r2hc (n : ℕ) (input : ℕ → ℝ) (k : ℕ) : ℝ :=
  if k ≤ n / 2 then
    ∑ j ∈ Finset.range n, input j * Real.cos (2 * Real.pi * (j : ℝ) * (k : ℝ) / (n : ℝ))
  else
    ∑ j ∈ Finset.range n, input j * Real.sin (2 * Real.pi * (j : ℝ) * ((n : ℝ) - (k : ℝ)) / (n : ℝ))

/-- The callback's filter-then-transform pipeline on one frame, with
the zero-initialized history the session starts from. -/
noncomputable def filteredTransform (b : List ℝ) (frame : List ℝ) (k : ℕ) : ℝ :=
  r2hc framesPerBuffer
    (fun i => (firProcess b (List.replicate filterOrder 0) frame).getD i 0) k

/-! ### Buffer handoff (app.cpp `App::updateAudioData` lines 127-155 and
`App::refreshPlots` lines 157-179)

The writer copies the time-domain samples and the dB-converted spectrum
into the shared buffers under `dataMutex` and sets `dataReady`; the
reader returns immediately when `dataReady` is false and otherwise
renders the buffers and clears the flag.  The lock serializes the two;
the embedding states what each critical section does to the state. -/

/-- The shared state guarded by `dataMutex`. -/
structure AppState where
  timeBuffer : List ℝ
  amplitudeBuffer : List ℝ
  freqBuffer : List ℝ
  magnitudeBuffer : List ℝ
  dataReady : Bool
  currentSampleRate : ℝ

/-- The dB conversion applied per FFT slot: magnitude `|v| / size`
floored at `1e-10`, converted to `20 * log10`, floored at `-80` dB. -/
noncomputable def dbMagnitude (v : ℝ) (size : ℕ) : ℝ :=
  let mag := |v| / (size : ℝ)
  let mag2 := if mag < 1e-10 then 1e-10 else mag
  let m := 20 * Real.logb 10 mag2
  if m < -80 then -80 else m

/-- `App::updateAudioData`: overwrite every shared buffer from the
callback's data and set the dirty flag. -/
noncomputable def updateAudioData (s : AppState) (timeData fftData : ℕ → ℝ)
    (size : ℕ) (sampleRate : ℝ) : AppState :=
  { s with
    currentSampleRate := sampleRate
    timeBuffer := (List.range size).map (fun i => (i : ℝ) / sampleRate)
    amplitudeBuffer := (List.range size).map (fun i => timeData i)
    freqBuffer := (List.range (size / 2)).map (fun i => (i : ℝ) * sampleRate / (size : ℝ))
    magnitudeBuffer := (List.range (size / 2)).map (fun i => dbMagnitude (fftData i) size)
    dataReady := true }

/-- What `App::refreshPlots` pushes to the two plots when it consumes
a dirty buffer. -/
structure RenderedPlots where
  timeXs : List ℝ
  timeYs : List ℝ
  timeXMax : ℝ
  timeYMax : ℝ
  freqXs : List ℝ
  freqYs : List ℝ

/-- `App::refreshPlots`: return immediately when nothing is dirty;
otherwise render the buffers (auto-scaling the amplitude axis) and
clear the dirty flag. -/
noncomputable def refreshPlots (s : AppState) : Option RenderedPlots × AppState :=
  if s.dataReady then
    let maxAmp := s.amplitudeBuffer.foldl (fun m a => if m < |a| then |a| else m) 0.01
    (some { timeXs := s.timeBuffer
            timeYs := s.amplitudeBuffer
            timeXMax := (s.timeBuffer.length : ℝ) / s.currentSampleRate
            timeYMax := maxAmp * 1.1
            freqXs := s.freqBuffer
            freqYs := s.magnitudeBuffer },
     { s with dataReady := false })
  else (none, s)

/-- The registry line of the ALSA-card-zero scenario. -/
def thr5RegistryLine : String := "0 [THR5]: USB-Audio - Yamaha THR5 Amplifier"

/-! ## Helper lemmas -/

theorem strData_append (s t : String) : (s ++ t).data = s.data ++ t.data := by
  cases s; cases t; rfl

theorem strAppend_empty (s : String) : s ++ "" = s :=
  String.ext (by rw [strData_append]; exact List.append_nil _)

/-- Two formatted device strings with the same numeric middle and the
same tail differ whenever their literal tags differ. -/
theorem tag_append_ne (p q mid tail : String) (hpq : p.data ≠ q.data) :
    (p ++ mid) ++ tail ≠ (q ++ mid) ++ tail := by
  intro h
  have h2 : (p.data ++ mid.data) ++ tail.data = (q.data ++ mid.data) ++ tail.data := by
    have h1 := congrArg String.data h
    rwa [strData_append, strData_append, strData_append, strData_append] at h1
  exact hpq (List.append_cancel_right (List.append_cancel_right h2))

theorem plughw_beq_dsnoop (k : Int) : (plughwString k == dsnoopString k) = false :=
  beq_eq_false_iff_ne.mpr (tag_append_ne "plughw:" "dsnoop:" (toString k) ",0" (by decide))

theorem hw_beq_dsnoop (k : Int) : (hwString k == dsnoopString k) = false :=
  beq_eq_false_iff_ne.mpr (tag_append_ne "hw:" "dsnoop:" (toString k) ",0" (by decide))

/-! ## C2: device-string candidate generation -/

/-- C2: for every resolved card index `K`, candidate generation yields
exactly 5 ordered device strings — plugin-wrapped, raw, snoop, explicit
system-default, bare system-default — each containing the literal
index. -/
theorem deviceCandidates_five_ordered (k : Int) :
    deviceCandidates k =
      ["plughw:" ++ toString k ++ ",0",
       "hw:" ++ toString k ++ ",0",
       "dsnoop:" ++ toString k ++ ",0",
       "sysdefault:" ++ toString k ++ ",0",
       "sysdefault:" ++ toString k] ∧
    (deviceCandidates k).length = 5 ∧
    (deviceCandidates k).Forall (fun s => ∃ pre post : String, s = pre ++ toString k ++ post) := by
  refine ⟨rfl, rfl, ?_⟩
  simp only [deviceCandidates, List.Forall, plughwString, hwString, dsnoopString,
    sysdefaultExplicitString, sysdefaultBareString]
  exact ⟨⟨"plughw:", ",0", rfl⟩, ⟨"hw:", ",0", rfl⟩, ⟨"dsnoop:", ",0", rfl⟩,
    ⟨"sysdefault:", ",0", rfl⟩, ⟨"sysdefault:", "", (strAppend_empty _).symm⟩⟩

/-! ## C5: generic-device open parameters -/

/-- C5: in the generic (no card index) case the GUI variant opens with
the device's maximum channel count capped at the requested 2 and the
device's default low input latency; the CLI variant opens with that
same capped count whenever it opens at all (it exits instead of opening
when the device supports fewer than 2 channels). -/
theorem generic_open_uses_min_channels (info : PaDeviceInfo) :
    (guiGenericOpenParams info).channelCount = min info.maxInputChannels 2 ∧
    (guiGenericOpenParams info).suggestedLatency = info.defaultLowInputLatency ∧
    cliGenericOpenParams info =
      (if info.maxInputChannels < 2 then none
       else some { channelCount := min info.maxInputChannels 2,
                   suggestedLatency := info.defaultLowInputLatency }) := by
  refine ⟨?_, rfl, ?_⟩
  · simp only [guiGenericOpenParams]
    rcases lt_or_le info.maxInputChannels 2 with h | h
    · rw [if_pos h, min_eq_left (le_of_lt h)]
    · rw [if_neg (not_lt.mpr h), min_eq_right h]
  · simp only [cliGenericOpenParams]
    rcases lt_or_le info.maxInputChannels 2 with h | h
    · rw [if_pos h, if_pos h]
    · rw [if_neg (not_lt.mpr h), if_neg (not_lt.mpr h), min_eq_right h]

/-! ## C8: card index 0 is a valid resolver result -/

/-- C8: a registry whose first line is `0 [THR5]: USB-Audio - ...`
resolves to card index 0 — not the "not found" sentinel `-1` —
whatever the remaining lines and usbid records contain. -/
theorem card_index_zero_is_found (rest : List String)
    (entries : List (String × Option String)) :
    getThr5AlsaCardIndex (thr5RegistryLine :: rest) entries = 0 ∧
    getThr5AlsaCardIndex (thr5RegistryLine :: rest) entries ≠ -1 := by
  have hparse : parseLeadingInt thr5RegistryLine = some 0 := by decide
  have hmatch : containsIgnoreCase thr5RegistryLine "THR5" = true := by decide
  have hscan : scanCards (thr5RegistryLine :: rest) (-1) = 0 := by
    simp [scanCards, hparse, hmatch]
  constructor
  · simp [getThr5AlsaCardIndex, hscan]
  · simp [getThr5AlsaCardIndex, hscan]

/-! ## C1: negotiation order and the snoop-mono scenario -/

/-- C1 (amended): for every resolved card index `K` the negotiation
loop tries the full requested channel count 2 before mono for each
device string and all 5 device strings before the pulse fallback; when
only the snoop device with mono succeeds, negotiation returns channel
count 1 with that device string, after exactly 5 prior failing attempts
(plughw stereo, plughw mono, hw stereo, hw mono, dsnoop stereo) in that
order — dsnoop mono being the 6th and successful attempt — and the
pulse fallback is never consulted. -/
theorem negotiation_snoop_mono_scenario (k : Int) (devices : List PaDeviceInfo)
    (pulseOpen : Nat → Nat → Bool) :
    negotiationPairs k =
      [(plughwString k, 2), (plughwString k, 1),
       (hwString k, 2), (hwString k, 1),
       (dsnoopString k, 2), (dsnoopString k, 1),
       (sysdefaultExplicitString k, 2), (sysdefaultExplicitString k, 1),
       (sysdefaultBareString k, 2), (sysdefaultBareString k, 1)] ∧
    tryCandidates (dsnoopOnlyOk k) (negotiationPairs k) = some (dsnoopString k, 1) ∧
    attemptsBefore (dsnoopOnlyOk k) (negotiationPairs k) =
      [(plughwString k, 2), (plughwString k, 1),
       (hwString k, 2), (hwString k, 1), (dsnoopString k, 2)] ∧
    (attemptsBefore (dsnoopOnlyOk k) (negotiationPairs k)).length = 5 ∧
    negotiateAlsa (dsnoopOnlyOk k) k devices pulseOpen =
      NegotiationOutcome.alsa (dsnoopString k) 1 := by
  have hpd := plughw_beq_dsnoop k
  have hhd := hw_beq_dsnoop k
  have htry : tryCandidates (dsnoopOnlyOk k) (negotiationPairs k) =
      some (dsnoopString k, 1) := by
    simp [negotiationPairs, deviceCandidates, channelCandidates,
      tryCandidates, dsnoopOnlyOk, hpd, hhd]
  refine ⟨rfl, htry, ?_, ?_, ?_⟩
  · simp [negotiationPairs, deviceCandidates, channelCandidates,
      attemptsBefore, dsnoopOnlyOk, hpd, hhd]
  · simp [negotiationPairs, deviceCandidates, channelCandidates,
      attemptsBefore, dsnoopOnlyOk, hpd, hhd]
  · simp [negotiateAlsa, htry]

/-- C1 (counterexample to the stated count): at card index 2 — the
`dsnoop:2,0` scenario — the failing attempts before the successful
snoop-mono open number 5, not 6, so the successful attempt is the 6th,
not the 7th. -/
theorem negotiation_prior_failures_not_six :
    (attemptsBefore (dsnoopOnlyOk 2) (negotiationPairs 2)).length = 5 ∧
    ¬ (attemptsBefore (dsnoopOnlyOk 2) (negotiationPairs 2)).length = 6 := by
  constructor
  · decide
  · decide

/-! ## C4: exhausted resolution signals DeviceNotFound -/

theorem scanCards_none (lines : List String)
    (h : ∀ line ∈ lines, containsIgnoreCase line "THR5" = false ∧
      containsIgnoreCase line "Yamaha" = false) :
    ∀ cur : Int, scanCards lines cur = -1 := by
  induction lines with
  | nil => intro cur; rfl
  | cons line rest ih =>
      intro cur
      have hl := h line (List.mem_cons_self line rest)
      have hr : ∀ l ∈ rest, containsIgnoreCase l "THR5" = false ∧
          containsIgnoreCase l "Yamaha" = false :=
        fun l hlr => h l (List.mem_cons_of_mem line hlr)
      simp [scanCards, hl.1, hl.2, ih hr]

theorem scanUsbids_none (entries : List (String × Option String))
    (h : ∀ e ∈ entries, ∀ c, e.2 = some c → usbidMatches c = false) :
    scanUsbids entries = -1 := by
  induction entries with
  | nil => rfl
  | cons e rest ih =>
      obtain ⟨name, usbid⟩ := e
      have hr : ∀ e ∈ rest, ∀ c, e.2 = some c → usbidMatches c = false :=
        fun e her c hc => h e (List.mem_cons_of_mem _ her) c hc
      show scanUsbids ((name, usbid) :: rest) = -1
      rw [scanUsbids]
      cases hidx : cardEntryIndex name with
      | none => exact ih hr
      | some idx =>
          by_cases hneg : idx < 0
          · simp [hneg, ih hr]
          · cases usbid with
            | none => simp [hneg, ih hr]
            | some content =>
                have hm := h (name, some content) (List.mem_cons_self _ _) content rfl
                simp [hneg, hm, ih hr]

theorem findInput_none (devices : List PaDeviceInfo) (pattern : String)
    (h : ∀ info ∈ devices, 0 < info.maxInputChannels →
      containsIgnoreCase info.name pattern = false) :
    findInputDeviceByName devices pattern = none := by
  have haux : ∀ i, findInputAux pattern i devices = none := by
    induction devices with
    | nil => intro i; rfl
    | cons info rest ih =>
        intro i
        have hr : ∀ d ∈ rest, 0 < d.maxInputChannels →
            containsIgnoreCase d.name pattern = false :=
          fun d hdr => h d (List.mem_cons_of_mem _ hdr)
        rw [findInputAux]
        by_cases hin : 0 < info.maxInputChannels
        · have := h info (List.mem_cons_self _ _) hin
          simp [hin, this, ih hr]
        · simp [hin, ih hr]
  exact haux 0

/-- C4: when no registry line names the target, no usbid record carries
the target's vendor:product id, and no input-capable PortAudio device
name matches the product name, the vendor name, or the generic `USB`
class, resolution yields `deviceNotFound` and the CLI variant prints a
diagnostic and exits with the nonzero `EXIT_FAILURE` status instead of
opening any stream. -/
theorem resolution_exhausted_device_not_found
    (lines : List String) (entries : List (String × Option String))
    (devices : List PaDeviceInfo)
    (hlines : ∀ line ∈ lines, containsIgnoreCase line "THR5" = false ∧
      containsIgnoreCase line "Yamaha" = false)
    (husb : ∀ e ∈ entries, ∀ c, e.2 = some c → usbidMatches c = false)
    (hdev : ∀ info ∈ devices, 0 < info.maxInputChannels →
      containsIgnoreCase info.name "THR5" = false ∧
      containsIgnoreCase info.name "Yamaha" = false ∧
      containsIgnoreCase info.name "USB" = false) :
    cliResolve lines entries devices = CliResolution.deviceNotFound ∧
    cliDeviceSelectOutcome lines entries devices =
      CliOutcome.exited exitFailure "Could not find Yamaha THR5 input device." ∧
    exitFailure ≠ 0 := by
  have hcard : getThr5AlsaCardIndex lines entries = -1 := by
    simp [getThr5AlsaCardIndex, scanCards_none lines hlines, scanUsbids_none entries husb]
  have hthr : findInputDeviceByName devices "THR5" = none :=
    findInput_none devices "THR5" (fun info hm hin => ((hdev info hm) hin).1)
  have hymh : findInputDeviceByName devices "Yamaha" = none :=
    findInput_none devices "Yamaha" (fun info hm hin => ((hdev info hm) hin).2.1)
  have husbdev : findInputDeviceByName devices "USB" = none :=
    findInput_none devices "USB" (fun info hm hin => ((hdev info hm) hin).2.2)
  have hres : cliResolve lines entries devices = CliResolution.deviceNotFound := by
    simp [cliResolve, hcard, hthr, hymh, husbdev]
  exact ⟨hres, by simp [cliDeviceSelectOutcome, hres], by decide⟩

/-- C4 witness: with empty registry, usbid records and device list,
every hypothesis of the exhaustion theorem holds vacuously and the CLI
variant exits with status 1. -/
theorem resolution_exhausted_witness :
    cliResolve [] [] [] = CliResolution.deviceNotFound ∧
    cliDeviceSelectOutcome [] [] [] =
      CliOutcome.exited exitFailure "Could not find Yamaha THR5 input device." ∧
    exitFailure ≠ 0 :=
  resolution_exhausted_device_not_found [] [] []
    (by simp) (by simp) (by simp)

/-! ## C3: at-most-once buffer handoff -/

/-- C3: a write publishes the buffers and sets the dirty flag; the
first read after it consumes the data and clears the flag; a second
read before any new write observes a clean flag and returns with the
state unchanged and nothing copied out. -/
theorem buffer_handoff_at_most_once (s : AppState) (timeData fftData : ℕ → ℝ)
    (size : ℕ) (sampleRate : ℝ) :
    (updateAudioData s timeData fftData size sampleRate).dataReady = true ∧
    ((refreshPlots (updateAudioData s timeData fftData size sampleRate)).1).isSome = true ∧
    ((refreshPlots (updateAudioData s timeData fftData size sampleRate)).2).dataReady = false ∧
    refreshPlots ((refreshPlots (updateAudioData s timeData fftData size sampleRate)).2) =
      (none, (refreshPlots (updateAudioData s timeData fftData size sampleRate)).2) := by
  refine ⟨rfl, ?_, ?_, ?_⟩ <;> simp [updateAudioData, refreshPlots]

/-! ## C6: zero frame is preserved by filter plus transform -/

theorem firDot_zero (b : List ℝ) :
    ∀ h : List ℝ, (∀ y ∈ h, y = 0) → firDot b h = 0 := by
  induction b with
  | nil => intro h _; rfl
  | cons a bs ih =>
      intro h hz
      cases h with
      | nil => rfl
      | cons y ys =>
          have hy : y = 0 := hz y (List.mem_cons_self _ _)
          have hrest : firDot bs ys = 0 :=
            ih ys (fun z hzz => hz z (List.mem_cons_of_mem _ hzz))
          simp [firDot, hy, hrest]

theorem firProcess_zero (b : List ℝ) (xs : List ℝ) :
    ∀ hist : List ℝ, (∀ y ∈ hist, y = 0) → (∀ x ∈ xs, x = 0) →
      ∀ y ∈ firProcess b hist xs, y = 0 := by
  induction xs with
  | nil => intro hist _ _ y hy; simp [firProcess] at hy
  | cons x xs ih =>
      intro hist hhist hxs y hy
      have hx : x = 0 := hxs x (List.mem_cons_self _ _)
      have hsh : ∀ z ∈ firShift hist x, z = 0 := by
        intro z hz
        rcases List.mem_cons.mp (by simpa [firShift] using hz) with h0 | hdl
        · rw [h0, hx]
        · exact hhist z ((List.dropLast_sublist hist).subset hdl)
      rw [firProcess] at hy
      rcases List.mem_cons.mp hy with h1 | h2
      · rw [h1]; exact firDot_zero b _ hsh
      · exact ih (firShift hist x) hsh (fun z hz => hxs z (List.mem_cons_of_mem _ hz)) y h2

theorem getD_zero_of_all_zero (l : List ℝ) (h : ∀ y ∈ l, y = 0) (i : ℕ) :
    l.getD i 0 = 0 := by
  rw [List.getD_eq_getD_get?]
  cases hg : l.get? i with
  | none => rfl
  | some a => simpa [hg] using h a (List.get?_mem hg)

theorem r2hc_zero (n k : ℕ) (input : ℕ → ℝ) (h : ∀ j, input j = 0) :
    r2hc n input k = 0 := by
  unfold r2hc
  split
  · exact Finset.sum_eq_zero (fun j _ => by rw [h j, zero_mul])
  · exact Finset.sum_eq_zero (fun j _ => by rw [h j, zero_mul])

/-- C6: a 512-sample all-zero frame, run through the FIR filter (any
coefficient list, with the session's zero-initialized history) and then
the half-complex transform, yields zero at every output slot. -/
theorem zero_frame_zero_transform (b : List ℝ) (k : ℕ) :
    filteredTransform b (List.replicate framesPerBuffer 0) k = 0 := by
  apply r2hc_zero
  intro i
  apply getD_zero_of_all_zero
  exact firProcess_zero b _ _
    (fun y hy => List.eq_of_mem_replicate hy)
    (fun x hx => List.eq_of_mem_replicate hx)

/-! ## C7: the display-bucket mapping is monotone in the column -/

theorem cTrunc_mono {q r : ℚ} (h : q ≤ r) : cTrunc q ≤ cTrunc r := by
  unfold cTrunc
  by_cases hq : q < 0 <;> by_cases hr : r < 0
  · rw [if_pos hq, if_pos hr]; exact Int.ceil_le_ceil h
  · rw [if_pos hq, if_neg hr]
    calc ⌈q⌉ ≤ 0 := Int.ceil_le.mpr (by exact_mod_cast le_of_lt hq)
    _ ≤ ⌊r⌋ := Int.le_floor.mpr (by exact_mod_cast not_lt.mp hr)
  · exact absurd (lt_of_le_of_lt h hr) hq
  · rw [if_neg hq, if_neg hr]; exact Int.floor_le_floor h

/-- C7: for a fixed start index, a fixed nonnegative span (the program
computes `spectroSize = 232`, a count of FFT slots), and a fixed column
count, the bucket index is monotonically non-decreasing in the column
index over `0 ≤ i < dispSize`. -/
theorem bucket_map_monotone (start span : ℤ) (dispSize i j : ℕ)
    (hspan : 0 ≤ span) (hij : i ≤ j) (hj : j < dispSize) :
    bucketIndex start span dispSize i ≤ bucketIndex start span dispSize j := by
  unfold bucketIndex
  apply cTrunc_mono
  have hD : (0 : ℚ) < (dispSize : ℚ) := by
    exact_mod_cast Nat.lt_of_le_of_lt (Nat.zero_le j) hj
  have hdiv : (i : ℚ) / (dispSize : ℚ) ≤ (j : ℚ) / (dispSize : ℚ) :=
    (div_le_div_iff_of_pos_right hD).mpr (by exact_mod_cast hij)
  have hpow : ((i : ℚ) / (dispSize : ℚ)) ^ 4 ≤ ((j : ℚ) / (dispSize : ℚ)) ^ 4 :=
    pow_le_pow_left₀ (by positivity) hdiv 4
  have hmul : ((i : ℚ) / (dispSize : ℚ)) ^ 4 * (span : ℚ) ≤
      ((j : ℚ) / (dispSize : ℚ)) ^ 4 * (span : ℚ) :=
    mul_le_mul_of_nonneg_right hpow (by exact_mod_cast hspan)
  linarith

/-- C7 witness: with the program's start index 1 and span 232, column 2
of 10 maps no higher than column 5 of 10. -/
theorem bucket_map_monotone_witness :
    (0 : ℤ) ≤ 232 ∧ 2 ≤ 5 ∧ 5 < 10 ∧
    bucketIndex 1 232 10 2 ≤ bucketIndex 1 232 10 5 :=
  ⟨by decide, by decide, by decide,
    bucket_map_monotone 1 232 10 2 5 (by decide) (by decide) (by decide)⟩

/-! ## C10: bucket indices stay inside the transform buffer -/

/-- C10: with the fixed configuration (512 frames at 44100 Hz, bounds
20 Hz and 20000 Hz) the computed start index is 1 and the computed span
is 232, and for every display width of at least 10 columns every
column's bucket index lies in `[0, 512)` — transform-buffer indexing in
the callback never goes out of bounds. -/
theorem bucket_index_in_bounds (dispSize i : ℕ) (hD : 10 ≤ dispSize) (hi : i < dispSize) :
    startIndexVal = 1 ∧ spectroSizeVal = 232 ∧
    0 ≤ bucketIndex startIndexVal spectroSizeVal dispSize i ∧
    bucketIndex startIndexVal spectroSizeVal dispSize i < 512 := by
  have hceil1 : (⌈samplesPerHz * 20⌉ : ℤ) = 1 := by
    rw [Int.ceil_eq_iff]
    constructor <;> norm_num [samplesPerHz]
  have hceil2 : (⌈samplesPerHz * 20000⌉ : ℤ) = 233 := by
    rw [Int.ceil_eq_iff]
    constructor <;> norm_num [samplesPerHz]
  have h1 : startIndexVal = 1 := hceil1
  have h2 : spectroSizeVal = 232 := by
    unfold spectroSizeVal startIndexVal cTrunc
    rw [hceil2, hceil1]
    rw [min_eq_left (by norm_num : ((233 : ℤ) : ℚ) ≤ (512 : ℚ) / 2)]
    rw [if_neg (by norm_num)]
    rw [Int.floor_eq_iff]
    constructor <;> norm_num
  refine ⟨h1, h2, ?_, ?_⟩ <;> rw [h1, h2]
  all_goals {
    have hDpos : (0 : ℚ) < (dispSize : ℚ) := by
      exact_mod_cast Nat.lt_of_lt_of_le (by norm_num) hD
    have hp0 : (0 : ℚ) ≤ ((i : ℚ) / (dispSize : ℚ)) ^ 4 := by positivity
    have hp1 : ((i : ℚ) / (dispSize : ℚ)) ^ 4 < 1 := by
      apply pow_lt_one₀ (by positivity) _ (by norm_num)
      exact (div_lt_one hDpos).mpr (by exact_mod_cast hi)
    have hmul : ((i : ℚ) / (dispSize : ℚ)) ^ 4 * 232 < 1 * 232 :=
      mul_lt_mul_of_pos_right hp1 (by norm_num)
    unfold bucketIndex cTrunc
    rw [if_neg (by push_cast; linarith)]
    first
    | exact Int.le_floor.mpr (by push_cast; linarith)
    | exact Int.floor_lt.mpr (by push_cast; linarith)
  }

/-- C10 witness: at display width 10, column 9 is in bounds. -/
theorem bucket_index_in_bounds_witness :
    10 ≤ 10 ∧ 9 < 10 ∧
    (startIndexVal = 1 ∧ spectroSizeVal = 232 ∧
      0 ≤ bucketIndex startIndexVal spectroSizeVal 10 9 ∧
      bucketIndex startIndexVal spectroSizeVal 10 9 < 512) :=
  ⟨by decide, by decide, bucket_index_in_bounds 10 9 (by decide) (by decide)⟩

/-! ## C9: eight-tier block-glyph quantization -/

theorem floor_eight_eq (x : ℚ) (k : ℤ) (h1 : (k : ℚ) ≤ 8 * x) (h2 : 8 * x < (k : ℚ) + 1) :
    ⌊8 * x⌋ = k :=
  Int.floor_eq_iff.mpr ⟨h1, by linarith⟩

/-- C9: the printed glyph is the block glyph of the value's intensity
tier `min 7 (max 0 ⌊8x⌋)` — eighths of the unit interval — so every
sampled value lands in exactly one of 8 tiers with thresholds at 0.125
increments; values below the lowest threshold (negatives included)
render the lowest glyph and values at or above 0.875 the highest. -/
theorem glyph_quantization (x : ℚ) :
    glyphForFreq x = blockGlyphs.getD (tierSpec x).toNat '▁' ∧
    0 ≤ tierSpec x ∧ tierSpec x ≤ 7 ∧
    glyphForFreq x ∈ blockGlyphs ∧
    glyphForFreq (min x 0) = '▁' ∧
    glyphForFreq (max x (7 / 8)) = '█' := by
  have hlo : 0 ≤ tierSpec x := le_min (by norm_num) (le_max_left 0 _)
  have hhi : tierSpec x ≤ 7 := min_le_left _ _
  have hmain : glyphForFreq x = blockGlyphs.getD (tierSpec x).toNat '▁' := by
    by_cases h1 : x < 0.125
    · have hf : ⌊8 * x⌋ < 1 := Int.floor_lt.mpr (by push_cast; linarith)
      have ht : tierSpec x = 0 := by unfold tierSpec; omega
      rw [ht]; simp [glyphForFreq, h1, blockGlyphs]
    · by_cases h2 : x < 0.25
      · have hf : ⌊8 * x⌋ = 1 :=
          floor_eight_eq x 1 (by push_cast; linarith) (by push_cast; linarith)
        have ht : tierSpec x = 1 := by unfold tierSpec; omega
        rw [ht]; simp [glyphForFreq, h1, h2, blockGlyphs]
      · by_cases h3 : x < 0.375
        · have hf : ⌊8 * x⌋ = 2 :=
            floor_eight_eq x 2 (by push_cast; linarith) (by push_cast; linarith)
          have ht : tierSpec x = 2 := by unfold tierSpec; omega
          rw [ht]; simp [glyphForFreq, h1, h2, h3, blockGlyphs]
        · by_cases h4 : x < 0.5
          · have hf : ⌊8 * x⌋ = 3 :=
              floor_eight_eq x 3 (by push_cast; linarith) (by push_cast; linarith)
            have ht : tierSpec x = 3 := by unfold tierSpec; omega
            rw [ht]; simp [glyphForFreq, h1, h2, h3, h4, blockGlyphs]
          · by_cases h5 : x < 0.625
            · have hf : ⌊8 * x⌋ = 4 :=
                floor_eight_eq x 4 (by push_cast; linarith) (by push_cast; linarith)
              have ht : tierSpec x = 4 := by unfold tierSpec; omega
              rw [ht]; simp [glyphForFreq, h1, h2, h3, h4, h5, blockGlyphs]
            · by_cases h6 : x < 0.75
              · have hf : ⌊8 * x⌋ = 5 :=
                  floor_eight_eq x 5 (by push_cast; linarith) (by push_cast; linarith)
                have ht : tierSpec x = 5 := by unfold tierSpec; omega
                rw [ht]; simp [glyphForFreq, h1, h2, h3, h4, h5, h6, blockGlyphs]
              · by_cases h7 : x < 0.875
                · have hf : ⌊8 * x⌋ = 6 :=
                    floor_eight_eq x 6 (by push_cast; linarith) (by push_cast; linarith)
                  have ht : tierSpec x = 6 := by unfold tierSpec; omega
                  rw [ht]; simp [glyphForFreq, h1, h2, h3, h4, h5, h6, h7, blockGlyphs]
                · have hf : (7 : ℤ) ≤ ⌊8 * x⌋ :=
                    Int.le_floor.mpr (by push_cast; linarith)
                  have ht : tierSpec x = 7 := by unfold tierSpec; omega
                  rw [ht]; simp [glyphForFreq, h1, h2, h3, h4, h5, h6, h7, blockGlyphs]
  have hmem : glyphForFreq x ∈ blockGlyphs := by
    rw [hmain]
    have hn : (tierSpec x).toNat < 8 := by omega
    have hall : ∀ n : ℕ, n < 8 → blockGlyphs.getD n '▁' ∈ blockGlyphs := by decide
    exact hall _ hn
  have hclampLo : glyphForFreq (min x 0) = '▁' := by
    have hm : min x 0 < 0.125 := lt_of_le_of_lt (min_le_right x 0) (by norm_num)
    simp [glyphForFreq, hm]
  have hclampHi : glyphForFreq (max x (7 / 8)) = '█' := by
    have hy : (7 : ℚ) / 8 ≤ max x (7 / 8) := le_max_right _ _
    have n1 : ¬ max x (7 / 8) < 0.125 := not_lt.mpr (by linarith)
    have n2 : ¬ max x (7 / 8) < 0.25 := not_lt.mpr (by linarith)
    have n3 : ¬ max x (7 / 8) < 0.375 := not_lt.mpr (by linarith)
    have n4 : ¬ max x (7 / 8) < 0.5 := not_lt.mpr (by linarith)
    have n5 : ¬ max x (7 / 8) < 0.625 := not_lt.mpr (by linarith)
    have n6 : ¬ max x (7 / 8) < 0.75 := not_lt.mpr (by linarith)
    have n7 : ¬ max x (7 / 8) < 0.875 := not_lt.mpr (by linarith)
    simp [glyphForFreq, n1, n2, n3, n4, n5, n6, n7]
  exact ⟨hmain, hlo, hhi, hmem, hclampLo, hclampHi⟩

end Aud
